import Mathlib

/-!
Verification of the context-aware hybrid lyric line classifier.

The development shallowly embeds the classifier (`classifyLine`,
`classifyLines`, `classifyWithML`, `checkSafeHeader`, `isSuspiciousHeader`,
`extractFeatures`, `countSurroundingLyrics`) and the vector utility
`cosineSimilarity`.  JavaScript regular expressions are embedded as a small
regular-expression language with derivative-based matching; JavaScript
numbers are idealised as rationals; `Math.sqrt` and the embedding backend
`embedText` are abstracted as components of an environment record, since the
backend is an external dependency of the classifier.
-/

namespace Slidegen

/-! ### Character classes (JS regex `\s`, `\d`, `\w`, `.`) and case mapping -/

/-- JS whitespace (`\s`), restricted to the ASCII range. -/
def isWsChar (c : Char) : Bool :=
  c = ' ' || c = '\t' || c = '\n' || c = '\r' || c = Char.ofNat 11 || c = Char.ofNat 12

/-- JS `\d`. -/
def isDigitChar (c : Char) : Bool :=
  '0' ≤ c && c ≤ '9'

/-- JS `\w` (`[A-Za-z0-9_]`). -/
def isWordChar (c : Char) : Bool :=
  ('a' ≤ c && c ≤ 'z') || ('A' ≤ c && c ≤ 'Z') || isDigitChar c || c = '_'

/-- JS `.` without the `s` flag: any character except a line terminator. -/
def isDotChar (c : Char) : Bool :=
  !(c = '\n' || c = '\r')

/-- ASCII uppercase letter (JS `[A-Z]`). -/
def isUpperChar (c : Char) : Bool :=
  'A' ≤ c && c ≤ 'Z'

/-- `text.toLowerCase()` on one ASCII character. -/
def lowerC (c : Char) : Char :=
  if isUpperChar c then Char.ofNat (c.toNat + 32) else c

/-- `text.toUpperCase()` on one ASCII character. -/
def upperC (c : Char) : Char :=
  if 'a' ≤ c && c ≤ 'z' then Char.ofNat (c.toNat - 32) else c

/-! ### `String.prototype.trim` and `String.prototype.split(/\s+/)` -/

/-- `text.trim()`: strip leading and trailing whitespace. -/
def trimChars (l : List Char) : List Char :=
  ((l.dropWhile isWsChar).reverse.dropWhile isWsChar).reverse

/-- `text.split(/\s+/)`: split on maximal whitespace runs, JS semantics
(leading/trailing separators produce empty fragments, `""` gives `[""]`). -/
def jsSplitWs : List Char → List (List Char)
  | [] => [[]]
  | c :: rest =>
    if isWsChar c then
      match rest with
      | r :: _ => if isWsChar r then jsSplitWs rest else [] :: jsSplitWs rest
      | [] => [] :: jsSplitWs rest
    else
      match jsSplitWs rest with
      | [] => [[c]]
      | w :: ws => (c :: w) :: ws

/-! ### Regular expressions with Brzozowski derivatives -/

/-- Regular expressions over characters; `cls` is a character class. -/
inductive RE where
  | fail : RE
  | eps : RE
  | cls : (Char → Bool) → RE
  | seq : RE → RE → RE
  | alt : RE → RE → RE
  | star : RE → RE

/-- Does the regex accept the empty word? -/
def RE.nullable : RE → Bool
  | .fail => false
  | .eps => true
  | .cls _ => false
  | .seq a b => a.nullable && b.nullable
  | .alt a b => a.nullable || b.nullable
  | .star _ => true

/-- Smart sequencing constructor. -/
def rseq : RE → RE → RE
  | .fail, _ => .fail
  | .eps, b => b
  | a, b =>
    match b with
    | .fail => .fail
    | .eps => a
    | _ => .seq a b

/-- Smart alternation constructor. -/
def ralt : RE → RE → RE
  | .fail, b => b
  | a, b =>
    match b with
    | .fail => a
    | _ => .alt a b

/-- Brzozowski derivative of a regex with respect to one character. -/
def RE.deriv : RE → Char → RE
  | .fail, _ => .fail
  | .eps, _ => .fail
  | .cls p, c => if p c then .eps else .fail
  | .seq a b, c =>
    if a.nullable then ralt (rseq (a.deriv c) b) (b.deriv c)
    else rseq (a.deriv c) b
  | .alt a b, c => ralt (a.deriv c) (b.deriv c)
  | .star a, c => rseq (a.deriv c) (.star a)

/-- Anchored (whole-word) regex matching: `/^r$/.test(l)`. -/
def reMatch (r : RE) (l : List Char) : Bool :=
  (l.foldl RE.deriv r).nullable

/-! ### Regex construction helpers -/

/-- Single literal character. -/
def chr (c : Char) : RE := .cls (fun d => d = c)

/-- Literal word. -/
def lit (l : List Char) : RE :=
  l.foldr (fun c r => rseq (chr c) r) .eps

/-- Literal word from a string literal. -/
def slit (s : String) : RE := lit s.toList

/-- `r?`. -/
def ropt (r : RE) : RE := .alt .eps r

/-- `r+`. -/
def rplus (r : RE) : RE := .seq r (.star r)

/-- Alternation of a list of regexes. -/
def alts (l : List RE) : RE := l.foldr ralt .fail

/-- `r{n}`: exactly `n` copies. -/
def npow : Nat → RE → RE
  | 0, _ => .eps
  | n + 1, r => rseq r (npow n r)

/-- `r{m,n}`: between `m` and `n` copies. -/
def bounded (m n : Nat) (r : RE) : RE :=
  rseq (npow m r) (npow (n - m) (ropt r))

/-- `\s*`. -/
def ws0 : RE := .star (.cls isWsChar)

/-- `\s+`. -/
def ws1 : RE := rplus (.cls isWsChar)

/-- `\d*`. -/
def d0 : RE := .star (.cls isDigitChar)

/-- `\d+`. -/
def d1 : RE := rplus (.cls isDigitChar)

/-- `[\s-]`: whitespace or hyphen. -/
def wsDash : RE := .cls (fun c => isWsChar c || c = '-')

/-- `(?:\s*:\s*.+?)?`: the optional trailing `": description"` of the
bracketed SAFE header patterns. -/
def colonDesc : RE :=
  ropt (rseq ws0 (rseq (chr ':') (rseq ws0 (rplus (.cls isDotChar)))))

/-- `\[KW(?:\s*:\s*.+?)?\]`. -/
def brDesc (inner : RE) : RE :=
  rseq (chr '[') (rseq inner (rseq colonDesc (chr ']')))

/-- `\[KW\]` (no description allowed). -/
def brPlain (inner : RE) : RE :=
  rseq (chr '[') (rseq inner (chr ']'))

/-! ### Pattern rule sets

A `Pat` is one source regex: `ci` records the `/i` flag; matching a
case-insensitive pattern lowercases the input, and the regex itself is
written over lowercase letters. -/

/-- One source regex together with its `/i` flag. -/
structure Pat where
  ci : Bool
  re : RE

/-- `pattern.test(l)` for an anchored pattern. -/
def matchPat (p : Pat) (l : List Char) : Bool :=
  reMatch p.re (if p.ci then l.map lowerC else l)

/-- `pre[\s-]?chor(?:us|ous)` (lowercased). -/
def preChorOusRe : RE :=
  rseq (slit "pre") (rseq (ropt wsDash) (rseq (slit "chor") (alts [slit "us", slit "ous"])))

/-- `pre[\s-]?chorus` (lowercased). -/
def preChorusRe : RE :=
  rseq (slit "pre") (rseq (ropt wsDash) (slit "chorus"))

/-- `post[\s-]?chorus` (lowercased). -/
def postChorusRe : RE :=
  rseq (slit "post") (rseq (ropt wsDash) (slit "chorus"))

/-- `SAFE_HEADER_PATTERNS.standardBracketed` (all `/i`). -/
def standardBracketed : List Pat :=
  [ ⟨true, brDesc (rseq (slit "verse") (rseq ws0 d0))⟩,
    ⟨true, brDesc (slit "chorus")⟩,
    ⟨true, brDesc preChorOusRe⟩,
    ⟨true, brDesc postChorusRe⟩,
    ⟨true, brDesc (slit "bridge")⟩,
    ⟨true, brDesc (slit "intro")⟩,
    ⟨true, brDesc (slit "outro")⟩,
    ⟨true, brDesc (slit "hook")⟩,
    ⟨true, brDesc (slit "refrain")⟩,
    ⟨true, brDesc (slit "interlude")⟩,
    ⟨true, brDesc (slit "breakdown")⟩,
    ⟨true, brDesc (slit "skit")⟩,
    ⟨true, brDesc (slit "instrumental")⟩,
    ⟨true, brDesc (rseq (slit "instrumental") (rseq ws1 (slit "break")))⟩,
    ⟨true, brDesc (rseq (slit "instrumental") (rseq ws1 (slit "intro")))⟩,
    ⟨true, brDesc (rseq (slit "instrumental") (rseq ws1 (slit "outro")))⟩,
    ⟨true, brDesc (rseq (ropt (rseq (rplus (.cls isWordChar)) ws1)) (slit "solo"))⟩,
    ⟨true, brDesc (slit "scatting")⟩,
    ⟨true, brDesc (slit "yodeling")⟩,
    ⟨true, brDesc (rseq (slit "non-lyrical") (rseq ws1 (slit "vocals")))⟩,
    ⟨true, brDesc (slit "segue")⟩,
    ⟨true, brDesc (rseq (slit "dance") (rseq ws1 (slit "break")))⟩,
    ⟨true, brDesc (slit "rap")⟩,
    ⟨true, brDesc (slit "dance")⟩,
    ⟨true, brDesc (slit "overture")⟩,
    ⟨true, brDesc (slit "recitative")⟩,
    ⟨true, brDesc (slit "aria")⟩,
    ⟨true, brDesc (slit "duet")⟩,
    ⟨true, brDesc (slit "ensemble")⟩,
    ⟨true, brDesc (slit "finale")⟩,
    ⟨true, brPlain (rseq (alts [slit "crowd", slit "audience"])
      (rseq ws1 (alts [slit "cheering", slit "applause", slit "noise"])))⟩,
    ⟨true, brPlain (rseq (alts [slit "phone", slit "door", slit "thunder", slit "rain", slit "footsteps"])
      (rseq ws0 (ropt (alts [slit "ringing", slit "slam", slit "sounds"]))))⟩,
    ⟨true, brDesc (rseq (slit "field") (rseq ws1 (slit "recording")))⟩,
    ⟨true, brDesc (rseq (slit "sound") (rseq ws1 (rseq (slit "effect") (ropt (chr 's')))))⟩,
    ⟨true, brPlain (rseq (slit "ambient") (rseq ws1 (slit "section")))⟩,
    ⟨true, brPlain (rseq (slit "noise") (rseq ws1 (slit "interlude")))⟩,
    ⟨true, brPlain (rseq (slit "glitch") (rseq ws1 (slit "section")))⟩,
    ⟨true, brDesc (slit "drone")⟩,
    ⟨true, brPlain (slit "improvisation")⟩,
    ⟨true, brPlain (rseq (slit "backwards") (rseq ws1 (slit "vocals")))⟩,
    ⟨true, brDesc (rseq (slit "stage") (rseq ws1 (slit "direction")))⟩,
    ⟨true, brPlain (rseq (slit "lighting") (rseq ws1 (slit "cue")))⟩,
    ⟨true, brPlain (rseq (slit "fade") (rseq ws1 (alts [slit "in", slit "out"])))⟩,
    ⟨true, brDesc (rseq (slit "beat") (rseq ws1 (slit "switch")))⟩,
    ⟨true, brDesc (rseq (slit "tempo") (rseq ws1 (slit "change")))⟩,
    ⟨true, brDesc (rseq (slit "key") (rseq ws1 (slit "change")))⟩,
    ⟨true, brDesc (rseq (slit "acapella") (rseq ws1 (slit "section")))⟩,
    ⟨true, brDesc (rseq (slit "call") (rseq ws1 (rseq (slit "and") (rseq ws1 (slit "response")))))⟩,
    ⟨true, brDesc (slit "beatboxing")⟩,
    ⟨true, brDesc (rseq (alts [slit "whispered", slit "screamed"]) (rseq ws1 (slit "vocals")))⟩,
    ⟨true, brDesc (rseq (slit "vocal") (rseq ws1 (slit "run")))⟩,
    ⟨true, brPlain (rseq (slit "hidden") (rseq ws1 (slit "track")))⟩,
    ⟨true, brDesc (rseq (slit "bonus") (rseq ws1 (alts [slit "verse", slit "track"])))⟩,
    ⟨true, brDesc (rseq (alts [slit "acoustic", slit "demo", slit "live"]) (rseq ws1 (slit "version")))⟩,
    ⟨true, brPlain (rseq (slit "credits") (rseq ws1 (slit "roll")))⟩ ]

/-- `SAFE_HEADER_PATTERNS.alphanumericCodes`: `V\d+`, `C\d+`, `B\d+` (all `/i`). -/
def alphanumericCodes : List Pat :=
  [ ⟨true, rseq (chr 'v') d1⟩,
    ⟨true, rseq (chr 'c') d1⟩,
    ⟨true, rseq (chr 'b') d1⟩ ]

/-- `[S5]` (lowercased `/i` class). -/
def s5Cls : RE := .cls (fun c => c = 's' || c = '5')

/-- `SAFE_HEADER_PATTERNS.commonMisspellings` (all `/i`). -/
def commonMisspellings : List Pat :=
  [ ⟨true, alts [slit "chrous", slit "chrus", slit "chrorus", slit "chors", slit "chrous", slit "chrus"]⟩,
    ⟨true, rseq (alts [slit "virse", slit "vers", slit "vrs", slit "virse", slit "vers", slit "vrs"])
      (rseq ws0 d0)⟩,
    ⟨true, alts [slit "briddge", slit "brige", slit "bridg", slit "briddge", slit "brige"]⟩,
    ⟨true, alts [slit "inro", slit "intro", slit "inro"]⟩,
    ⟨true, rseq (slit "choru") s5Cls⟩,
    ⟨true, rseq (slit "ver") (rseq s5Cls (rseq (ropt (chr 'e')) (rseq ws0 d0)))⟩ ]

/-- `[IVX\d]` lowercased. -/
def ivxdCls : RE := .cls (fun c => c = 'i' || c = 'v' || c = 'x' || isDigitChar c)

/-- `SAFE_HEADER_PATTERNS.parts` (all `/i`). -/
def partsPatterns : List Pat :=
  [ ⟨true, rseq (slit "part") (rseq ws1 (rseq (rplus ivxdCls)
      (ropt (rseq ws0 (rseq (chr ':') (rseq ws0 (rplus (.cls isDotChar))))))))⟩,
    ⟨true, rseq (slit "part") (rseq ws1 (rplus ivxdCls))⟩ ]

/-- `(?:x|X|×)` lowercased. -/
def xCls : RE := alts [chr 'x', chr 'x', chr '×']

/-- `SAFE_HEADER_PATTERNS.withRepeats` (all `/i`). -/
def withRepeats : List Pat :=
  [ ⟨true, rseq (alts [slit "verse", slit "chorus", slit "bridge", slit "intro", slit "outro",
        slit "hook", preChorusRe, postChorusRe])
      (rseq ws0 (rseq (chr '(') (rseq xCls (rseq d1 (chr ')')))))⟩,
    ⟨true, rseq (chr '[')
      (rseq (alts [slit "verse", slit "chorus", slit "bridge", slit "intro", slit "outro",
          slit "hook", slit "pre-chorus", slit "post-chorus"])
        (rseq ws0 (rseq d0 (rseq (chr ']')
          (rseq ws0 (rseq (chr '(') (rseq xCls (rseq d1 (chr ')')))))))))⟩ ]

/-- `SAFE_HEADER_PATTERNS.timestamps` (case-sensitive). -/
def timestamps : List Pat :=
  [ ⟨false, rseq (ropt (chr '['))
      (rseq (ropt (rseq (bounded 1 2 (.cls isDigitChar)) (chr ':')))
        (rseq (bounded 1 2 (.cls isDigitChar))
          (rseq (chr ':') (rseq (npow 2 (.cls isDigitChar)) (ropt (chr ']'))))))⟩,
    ⟨false, rseq (chr '@') (rseq ws0 (rseq (bounded 1 2 (.cls isDigitChar))
      (rseq (chr ':') (npow 2 (.cls isDigitChar)))))⟩ ]

/-- `[IVX]` (case-sensitive). -/
def romanCls : RE := .cls (fun c => c = 'I' || c = 'V' || c = 'X')

/-- `SAFE_HEADER_PATTERNS.sections`. -/
def sectionsPatterns : List Pat :=
  [ ⟨false, rseq (ropt (chr '[')) (rseq (rplus romanCls) (ropt (chr ']')))⟩,
    ⟨true, rseq (slit "section") (rseq ws1 (.cls (fun c => 'a' ≤ c && c ≤ 'z')))⟩,
    ⟨true, rseq (slit "movement") (rseq ws1 d1)⟩,
    ⟨false, rseq (chr '#') d1⟩ ]

/-- The concatenation of SAFE pattern categories, in the order of
`checkSafeHeader`. -/
def allSafePatterns : List Pat :=
  standardBracketed ++ alphanumericCodes ++ partsPatterns ++ withRepeats ++
    commonMisspellings ++ timestamps ++ sectionsPatterns

/-- Does any SAFE pattern match? -/
def safeMatch (l : List Char) : Bool :=
  allSafePatterns.any (fun p => matchPat p l)

/-- `SUSPICIOUS_PATTERNS.singleWordStructural` (all `/i`). -/
def singleWordStructural : List Pat :=
  [ ⟨true, alts [slit "verse", slit "chorus", slit "bridge", slit "intro", slit "outro",
      slit "hook", slit "refrain", slit "interlude", slit "instrumental", slit "breakdown",
      slit "drop", slit "beat", slit "rap", slit "acapella", preChorusRe, postChorusRe]⟩,
    ⟨true, rseq (alts [slit "verse", preChorusRe, postChorusRe]) (rseq ws1 d1)⟩,
    ⟨true, rseq (alts [slit "verse", slit "chorus", slit "bridge"])
      (rseq ws1 (alts [slit "one", slit "two", slit "three", slit "four", slit "five"]))⟩,
    ⟨true, rseq (slit "final") (rseq ws1 (alts [slit "verse", slit "chorus", slit "bridge"]))⟩,
    ⟨true, rseq (alts [slit "instrumental", slit "guitar", slit "drum", slit "bass",
        slit "piano", slit "sax", slit "saxophone"])
      (rseq ws1 (alts [slit "break", slit "solo"]))⟩,
    ⟨true, rseq (slit "chorus") (rseq ws1 (rseq (chr 'x') d1))⟩,
    ⟨true, alts [slit "overture", slit "recitative", slit "aria", slit "duet",
      slit "ensemble", slit "finale"]⟩,
    ⟨true, rseq (slit "dance") (rseq ws1 (slit "break"))⟩,
    ⟨true, rseq (alts [slit "ambient", slit "noise", slit "glitch", slit "drone", slit "improvisation"])
      (rseq ws1 (alts [slit "section", slit "interlude"]))⟩ ]

/-- `SUSPICIOUS_PATTERNS.allCapsShort`: `^[A-Z][A-Z\s-]{1,18}[A-Z]$` (case-sensitive). -/
def allCapsShort : List Pat :=
  [ ⟨false, rseq (.cls isUpperChar)
      (rseq (bounded 1 18 (.cls (fun c => isUpperChar c || isWsChar c || c = '-')))
        (.cls isUpperChar))⟩ ]

/-- `SUSPICIOUS_PATTERNS.directions`. -/
def directionsPatterns : List Pat :=
  [ ⟨true, rseq (chr '(')
      (rseq (alts [slit "repeat", slit "softly", slit "echo", slit "with feeling", slit "ad-lib"])
        (chr ')'))⟩,
    ⟨false, rseq (chr '*') (rseq (rplus (.cls (fun c => !(c = '*')))) (chr '*'))⟩,
    ⟨false, rseq (chr '~') (rseq (rplus (.cls (fun c => !(c = '~')))) (chr '~'))⟩ ]

/-- The concatenation of SUSPICIOUS pattern categories, in the order of
`isSuspiciousHeader`. -/
def allSuspiciousPatterns : List Pat :=
  singleWordStructural ++ allCapsShort ++ directionsPatterns

/-- Does any SUSPICIOUS pattern match? -/
def suspiciousMatch (l : List Char) : Bool :=
  allSuspiciousPatterns.any (fun p => matchPat p l)

/-! ### Classification data model -/

/-- `Classification.type`: the four verdicts. -/
inductive LType where
  | header | lyric | empty | uncertain
  deriving DecidableEq, Repr

/-- `Classification.method`: which stage produced the verdict. -/
inductive MethodTag where
  | rule | ruleSafe | heuristicLength | heuristicExclamation | mlContext
  deriving DecidableEq, Repr

/-- `context.positionInGroup`. -/
inductive PosTag where
  | first | middle | last | unknown
  deriving DecidableEq, Repr

/-- The context record handed to `classifyLine` / `extractFeatures`;
`none` stands for JavaScript `null` / an absent field. -/
structure Context where
  previous : Option (List Char) := none
  next : Option (List Char) := none
  positionInGroup : PosTag := .unknown
  surroundingLyricCount : Nat := 0
  deriving DecidableEq, Repr

/-- The feature object produced by `extractFeatures`. -/
structure FeatureSet where
  wordCount : Nat
  charCount : Nat
  hasAllCaps : Bool
  hasBrackets : Bool
  hasParentheses : Bool
  startsWithNumber : Bool
  endsWithColon : Bool
  containsStructuralKeyword : Bool
  isSuspicious : Bool
  previousLineEmpty : Bool
  nextLineEmpty : Bool
  positionInGroup : PosTag
  deriving DecidableEq, Repr

/-- A per-line classification record. -/
structure Classification where
  type : LType
  confidence : ℚ
  method : MethodTag
  features : Option FeatureSet := none
  headerSim : Option ℚ := none
  lyricSim : Option ℚ := none
  biasApplied : Bool := false
  isAmbiguous : Bool := false
  deriving DecidableEq, Repr

/-- The raw result of `classifyWithML` before its fields are spread into
the final classification. -/
structure MLRes where
  type : LType
  confidence : ℚ
  headerSim : ℚ
  lyricSim : ℚ
  features : FeatureSet
  deriving DecidableEq, Repr

/-- Spreading an ML result into a classification record (`{ ...mlResult }`). -/
def MLRes.toClassification (m : MLRes) : Classification :=
  { type := m.type, confidence := m.confidence, method := .mlContext,
    features := some m.features, headerSim := some m.headerSim, lyricSim := some m.lyricSim }

/-- The environment: the external embedding backend (`embedText`) and the
square-root function used by `cosineSimilarity` (`Math.sqrt`).  Both are
abstracted, the former because it is an external model, the latter because
exact square roots do not exist on the rationals. -/
structure Env where
  embed : List Char → Except String (List ℚ)
  sqrtQ : ℚ → ℚ

/-! ### Classifier helpers from the source -/

/-- `CONFIDENCE_THRESHOLD = 0.10`. -/
def CONFIDENCE_THRESHOLD : ℚ := 1/10

/-- `USE_HYBRID_APPROACH = true`. -/
def USE_HYBRID_APPROACH : Bool := true

/-- `normalizeForML`: lowercase, strip everything but `\w` and `\s`, trim. -/
def normalizeForML (l : List Char) : List Char :=
  trimChars ((l.map lowerC).filter (fun c => isWordChar c || isWsChar c))

/-- `checkSafeHeader`: SAFE patterns yield an immediate Header verdict with
confidence 1. -/
def checkSafeHeader (line : List Char) : Option Classification :=
  let trimmed := trimChars line
  if trimmed.isEmpty then none
  else if safeMatch trimmed then
    some { type := .header, confidence := 1, method := .ruleSafe }
  else none

/-- `isSuspiciousHeader`. -/
def isSuspiciousHeader (line : List Char) : Bool :=
  let trimmed := trimChars line
  if trimmed.isEmpty then false
  else suspiciousMatch trimmed

/-- The alternation inside `containsStructuralKeyword`
(`verse|chorus|...|pre[\s-]?chorus|post[\s-]?chorus`, lowercased). -/
def structKwRe : RE :=
  alts [slit "verse", slit "chorus", slit "bridge", slit "intro", slit "outro",
    slit "hook", slit "refrain", slit "interlude", slit "instrumental", slit "breakdown",
    slit "drop", slit "beat", slit "rap", slit "acapella", preChorusRe, postChorusRe]

/-- Does some prefix of `l` match `r`, followed by a `\b` word boundary
(that is, the end of the string or a non-word character)? -/
def kwMatchHere : RE → List Char → Bool
  | r, [] => r.nullable
  | r, c :: rest => (r.nullable && !isWordChar c) || kwMatchHere (r.deriv c) rest

/-- Scan all start positions for a `\b`-delimited keyword occurrence;
the boolean argument records whether the previous character was a word
character (every keyword starts with a word character, so `\b` holds at a
start position exactly when the previous character is not one). -/
def kwSearchGo : List Char → Bool → Bool
  | [], _ => false
  | c :: rest, prevWord =>
    (!prevWord && kwMatchHere structKwRe (c :: rest)) || kwSearchGo rest (isWordChar c)

/-- `/\b(?:verse|chorus|...)\b/i.test(trimmed)`: the trimmed line *contains*
a structural keyword. -/
def containsStructuralKw (l : List Char) : Bool :=
  kwSearchGo (l.map lowerC) false

/-- `/\(.*\)/.test(trimmed)` (searching, `.` excludes line terminators):
is there a `)` after the next `(` with no line break between? -/
def parenCloseBefore : List Char → Bool
  | [] => false
  | c :: rest => if c = ')' then true else if isDotChar c then parenCloseBefore rest else false

/-- Search for `\(.*\)` anywhere in the line. -/
def hasParenMatch : List Char → Bool
  | [] => false
  | c :: rest => (c = '(' && parenCloseBefore rest) || hasParenMatch rest

/-- `extractFeatures`. -/
def extractFeatures (line : List Char) (context : Context) : FeatureSet :=
  let trimmed := trimChars line
  { wordCount := (jsSplitWs trimmed).length,
    charCount := trimmed.length,
    hasAllCaps := (trimmed = trimmed.map upperC) && trimmed.any isUpperChar,
    hasBrackets := reMatch (rseq (chr '[') (rseq (.star (.cls isDotChar)) (chr ']'))) trimmed,
    hasParentheses := hasParenMatch trimmed,
    startsWithNumber := (trimmed.head?.map isDigitChar).getD false,
    endsWithColon := (trimmed.getLast?.map (fun c => decide (c = ':'))).getD false,
    containsStructuralKeyword := containsStructuralKw trimmed,
    isSuspicious := isSuspiciousHeader trimmed,
    previousLineEmpty := match context.previous with
      | none => true
      | some p => (trimChars p).isEmpty,
    nextLineEmpty := match context.next with
      | none => true
      | some n => (trimChars n).isEmpty,
    positionInGroup := context.positionInGroup }

/-! ### Vector math: `cosineSimilarity` -/

/-- The dot product accumulated by the `cosineSimilarity` loop. -/
def dotP (a b : List ℚ) : ℚ :=
  ((a.zip b).map (fun p => p.1 * p.2)).sum

/-- The squared magnitude accumulated by the `cosineSimilarity` loop. -/
def sumSq (a : List ℚ) : ℚ :=
  (a.map (fun x => x * x)).sum

/-- `cosineSimilarity(a, b)`: throws on a length mismatch, returns `0` when
either magnitude is zero, and the dot-product quotient otherwise.
`sqrtQ` stands for `Math.sqrt`. -/
def cosineSimilarity (sqrtQ : ℚ → ℚ) (a b : List ℚ) : Except String ℚ :=
  if a.length ≠ b.length then .error "Vectors must have the same length"
  else
    let dotProduct := dotP a b
    let magnitudeA := sqrtQ (sumSq a)
    let magnitudeB := sqrtQ (sumSq b)
    if magnitudeA = 0 ∨ magnitudeB = 0 then .ok 0
    else .ok (dotProduct / (magnitudeA * magnitudeB))

/-! ### Classifier core -/

/-- `classifyWithML`: embed the normalized line, compare with both
centroids, apply the four context multipliers, and decide by the sign of
the margin. -/
def classifyWithML (env : Env) (line : List Char) (headerCentroid lyricCentroid : List ℚ)
    (features : FeatureSet) (context : Context) : Except String MLRes := do
  let normalized := normalizeForML line
  let embedding ← env.embed normalized
  let headerSim0 ← cosineSimilarity env.sqrtQ embedding headerCentroid
  let lyricSim0 ← cosineSimilarity env.sqrtQ embedding lyricCentroid
  let lyricSim1 := if context.surroundingLyricCount ≥ 3 then lyricSim0 * (23/20) else lyricSim0
  let headerSim1 := if features.isSuspicious then headerSim0 * (5/4) else headerSim0
  let headerSim2 :=
    if features.wordCount ≤ 2 ∧ features.hasAllCaps = true ∧ features.charCount ≤ 20 then
      headerSim1 * (23/20)
    else headerSim1
  let lyricSim2 :=
    if features.wordCount ≥ 4 ∧ features.containsStructuralKeyword = true then
      lyricSim1 * (6/5)
    else lyricSim1
  let margin := headerSim2 - lyricSim2
  .ok { type := if margin > 0 then .header else .lyric, confidence := |margin|,
        headerSim := headerSim2, lyricSim := lyricSim2, features := features }

/-- `classifyLine`: empty check, SAFE rules, the two heuristics, then the
ML stage guarded by the centroid null-check, with the low-confidence
post-processing. -/
def classifyLine (env : Env) (line : List Char)
    (headerCentroid lyricCentroid : Option (List ℚ)) (context : Context) :
    Except String Classification :=
  let trimmed := trimChars line
  if trimmed.isEmpty then
    .ok { type := .empty, confidence := 1, method := .rule }
  else
    match (if USE_HYBRID_APPROACH then checkSafeHeader trimmed else none) with
    | some safeResult => .ok safeResult
    | none =>
      let features := extractFeatures trimmed context
      if features.wordCount ≥ 5 ∧ features.isSuspicious = false then
        .ok { type := .lyric, confidence := 19/20, method := .heuristicLength,
              features := some features }
      else if features.wordCount ≤ 3 ∧ trimmed.any (fun c => c = '!') ∧
          features.containsStructuralKeyword = false then
        .ok { type := .lyric, confidence := 17/20, method := .heuristicExclamation,
              features := some features }
      else
        match headerCentroid, lyricCentroid with
        | some hc, some lc => do
          let mlResult ← classifyWithML env trimmed hc lc features context
          if mlResult.confidence < CONFIDENCE_THRESHOLD then
            if features.isSuspicious = true ∧ mlResult.headerSim > mlResult.lyricSim * (9/10) then
              .ok { mlResult.toClassification with type := .header, biasApplied := true }
            else
              .ok { mlResult.toClassification with type := .uncertain, isAmbiguous := true }
          else
            .ok mlResult.toClassification
        | _, _ => .error "ML classification requires headerCentroid and lyricCentroid"

/-! ### Batch classification: two passes -/

/-- One entry of the `results` array: `{ text, ...classification }`, plus
the `reprocessed` tag added by the second pass. -/
structure Result where
  text : List Char
  cls : Classification
  reprocessed : Bool := false
  deriving DecidableEq, Repr

/-- `countSurroundingLyrics(results, index)`: lyric verdicts within the
± `windowSize` window (default 2), excluding `index` itself. -/
def countSurroundingLyrics (results : List Result) (index : Nat) (windowSize : Nat := 2) : Nat :=
  let start := index - windowSize
  let stop := min results.length (index + windowSize + 1)
  ((List.range results.length).filter (fun i =>
    decide (start ≤ i) && decide (i < stop) && decide (i ≠ index) &&
      decide ((results.get? i).map (fun r => r.cls.type) = some .lyric))).length

/-- The per-index context built inside `classifyLines`. -/
def mkContext (lines : List (List Char)) (i : Nat) (surrounding : Nat) : Context :=
  { previous := if i = 0 then none else lines.get? (i - 1),
    next := if i < lines.length - 1 then lines.get? (i + 1) else none,
    positionInGroup := if i = 0 then .first
      else if i = lines.length - 1 then .last else .middle,
    surroundingLyricCount := surrounding }

/-- The first pass of `classifyLines`: classify each line in order with
`surroundingLyricCount = 0`, stopping at the first error. -/
def pass1 (env : Env) (lines : List (List Char))
    (headerCentroid lyricCentroid : Option (List ℚ)) : Except String (List Result) :=
  (List.range lines.length).mapM (fun i => do
    let line := (lines.get? i).getD []
    let r ← classifyLine env line headerCentroid lyricCentroid (mkContext lines i 0)
    .ok { text := line, cls := r })

/-- Is a first-pass result flagged for re-evaluation? (`uncertain`, or a
suspicious feature set, or a Header verdict with confidence below 0.3.) -/
def needsReeval (r : Result) : Bool :=
  decide (r.cls.type = .uncertain) ||
    ((r.cls.features.map (fun f => f.isSuspicious)).getD false) ||
    (decide (r.cls.type = .header) && decide (r.cls.confidence < 3/10))

/-- The second-pass loop of `classifyLines`, iterating `i` over the results
array and updating it in place; `fuel` is the number of remaining steps. -/
def pass2go (env : Env) (lines : List (List Char))
    (headerCentroid lyricCentroid : Option (List ℚ)) :
    List Result → Nat → Nat → Except String (List Result)
  | results, _, 0 => .ok results
  | results, i, fuel + 1 =>
    match results.get? i with
    | none => .ok results
    | some r =>
      if needsReeval r then do
        let surrounding := countSurroundingLyrics results i
        let line := (lines.get? i).getD []
        let updated ← classifyLine env line headerCentroid lyricCentroid
          (mkContext lines i surrounding)
        pass2go env lines headerCentroid lyricCentroid
          (results.set i { text := line, cls := updated, reprocessed := true }) (i + 1) fuel
      else
        pass2go env lines headerCentroid lyricCentroid results (i + 1) fuel

/-- `classifyLines`: the first pass followed by the in-place second pass. -/
def classifyLines (env : Env) (lines : List (List Char))
    (headerCentroid lyricCentroid : Option (List ℚ)) : Except String (List Result) := do
  let results ← pass1 env lines headerCentroid lyricCentroid
  pass2go env lines headerCentroid lyricCentroid results 0 results.length

/-- A structurally different rendering of the second pass: the processed
prefix `done` (already re-evaluated) and the unprocessed suffix `todo`
(still carrying first-pass verdicts); the window count at each step is
taken over `done ++ todo`, the current state of the array. -/
def pass2spec (env : Env) (lines : List (List Char))
    (headerCentroid lyricCentroid : Option (List ℚ)) :
    List Result → List Result → Except String (List Result)
  | done, [] => .ok done
  | done, r :: todo =>
    let i := done.length
    if needsReeval r then do
      let surrounding := countSurroundingLyrics (done ++ r :: todo) i
      let line := (lines.get? i).getD []
      let updated ← classifyLine env line headerCentroid lyricCentroid
        (mkContext lines i surrounding)
      pass2spec env lines headerCentroid lyricCentroid
        (done ++ [{ text := line, cls := updated, reprocessed := true }]) todo
    else
      pass2spec env lines headerCentroid lyricCentroid (done ++ [r]) todo

/-! ### Basic lemmas about trimming -/

theorem dropWhile_dropWhile (p : Char → Bool) (l : List Char) :
    (l.dropWhile p).dropWhile p = l.dropWhile p := by
  induction l with
  | nil => rfl
  | cons c t ih =>
    by_cases h : p c
    · simpa [List.dropWhile_cons, h] using ih
    · simp [List.dropWhile_cons, h]

theorem head?_dropWhile (p : Char → Bool) (l : List Char) {c : Char}
    (h : (l.dropWhile p).head? = some c) : p c = false := by
  induction l with
  | nil => simp at h
  | cons d t ih =>
    by_cases hd : p d
    · exact ih (by simpa [List.dropWhile_cons, hd] using h)
    · simp [List.dropWhile_cons, hd] at h
      simpa [h] using hd

theorem dropWhile_eq_self_of_head (p : Char → Bool) (l : List Char)
    (h : ∀ c, l.head? = some c → p c = false) : l.dropWhile p = l := by
  cases l with
  | nil => rfl
  | cons c t => simp [List.dropWhile_cons, h c rfl]

theorem trimChars_idem (l : List Char) : trimChars (trimChars l) = trimChars l := by
  unfold trimChars
  set x := l.dropWhile isWsChar with hx
  set y := x.reverse.dropWhile isWsChar with hy
  have h1 : y.reverse.dropWhile isWsChar = y.reverse := by
    apply dropWhile_eq_self_of_head
    intro c hc
    rw [List.head?_reverse] at hc
    rcases (List.dropWhile_suffix isWsChar : x.reverse.dropWhile isWsChar <:+ x.reverse) with ⟨t, ht⟩
    rw [← hy] at ht
    have hyne : y ≠ [] := by
      intro h0
      rw [h0] at hc
      simp at hc
    have : x.reverse.getLast? = some c := by
      rw [← ht]
      exact (List.getLast?_append_of_ne_nil t hyne).trans hc
    rw [List.getLast?_reverse] at this
    exact head?_dropWhile isWsChar l (hx ▸ this)
  rw [h1, List.reverse_reverse, hy, dropWhile_dropWhile]

theorem safeMatch_nil : safeMatch [] = false := by decide

/-- The classification produced for every SAFE match. -/
def safeHeaderCls : Classification :=
  { type := .header, confidence := 1, method := .ruleSafe }

theorem checkSafeHeader_of_safeMatch (l : List Char) (h : safeMatch (trimChars l) = true) :
    checkSafeHeader (trimChars l) = some safeHeaderCls := by
  have hne : ¬((trimChars (trimChars l)).isEmpty = true) := by
    rw [trimChars_idem, List.isEmpty_iff]
    intro h0
    rw [h0, safeMatch_nil] at h
    cases h
  unfold checkSafeHeader
  rw [if_neg hne, trimChars_idem, if_pos h]
  rfl

/-! ### Concrete environments used by witnesses and counterexamples -/

/-- A backend that embeds every text as `[1, 0]`, with a square root that
is exact at `1` (the only squared magnitude it is ever applied to). -/
def envA : Env :=
  { embed := fun _ => .ok [1, 0], sqrtQ := fun x => if x = 1 then 1 else 0 }

/-- A backend that is down: every embedding request fails. -/
def envB : Env :=
  { embed := fun _ => .error "backend down", sqrtQ := fun _ => 0 }

/-! ### Claim theorems -/

/-- C1: any line whose trimmed text matches a SAFE header pattern is
classified as Header with confidence exactly 1, for every environment,
every centroid pair (present or absent) and every context. -/
theorem claim_C1_safe_precedence (env : Env) (line : List Char)
    (hc lc : Option (List ℚ)) (ctx : Context)
    (h : safeMatch (trimChars line) = true) :
    classifyLine env line hc lc ctx = .ok safeHeaderCls := by
  have hne : ¬((trimChars line).isEmpty = true) := by
    rw [List.isEmpty_iff]
    intro h0
    rw [h0, safeMatch_nil] at h
    cases h
  unfold classifyLine
  rw [if_neg hne]
  have hcs := checkSafeHeader_of_safeMatch line h
  simp [USE_HYBRID_APPROACH, hcs]

/-- Witness for C1 at the concrete line `"CHORUS"`. -/
theorem claim_C1_witness :
    safeMatch (trimChars "CHORUS".toList) = true ∧
      classifyLine envA "CHORUS".toList none none {} = .ok safeHeaderCls :=
  ⟨by decide, claim_C1_safe_precedence envA "CHORUS".toList none none {} (by decide)⟩

/-- The five-line end-to-end scenario from the spec. -/
def endToEndLines : List (List Char) :=
  ["CHORUS".toList, "Walking down the street at night".toList, "[Verse 1]".toList,
   "This instrumental melody is beautiful".toList, "".toList]

deriving instance DecidableEq for Except

theorem cosineSimilarity_eq (sqrtQ : ℚ → ℚ) (a b : List ℚ) (hlen : a.length = b.length) :
    cosineSimilarity sqrtQ a b =
      if sqrtQ (sumSq a) = 0 ∨ sqrtQ (sumSq b) = 0 then .ok 0
      else .ok (dotP a b / (sqrtQ (sumSq a) * sqrtQ (sumSq b))) := by
  rw [cosineSimilarity, if_neg (by simpa using hlen)]

theorem sumSq_nonneg (a : List ℚ) : 0 ≤ sumSq a := by
  unfold sumSq
  apply List.sum_nonneg
  intro x hx
  simp only [List.mem_map] at hx
  obtain ⟨y, _, rfl⟩ := hx
  exact mul_self_nonneg y

/-- C9: `cosineSimilarity` errors exactly when the vector lengths differ;
on equal lengths it never errors, returning 0 when either vector has zero
magnitude and the dot-product quotient otherwise.  `sqrtQ` is assumed to
vanish exactly at 0 on nonnegative inputs, as `Math.sqrt` does. -/
theorem claim_C9_cosine_error_contract (sqrtQ : ℚ → ℚ)
    (hsq : ∀ x : ℚ, 0 ≤ x → (sqrtQ x = 0 ↔ x = 0)) (a b : List ℚ) :
    ((∃ e, cosineSimilarity sqrtQ a b = .error e) ↔ a.length ≠ b.length) ∧
    (a.length = b.length →
      ((sumSq a = 0 ∨ sumSq b = 0) → cosineSimilarity sqrtQ a b = .ok 0) ∧
      (sumSq a ≠ 0 → sumSq b ≠ 0 →
        cosineSimilarity sqrtQ a b =
          .ok (dotP a b / (sqrtQ (sumSq a) * sqrtQ (sumSq b))))) := by
  by_cases hlen : a.length = b.length
  · constructor
    · constructor
      · rintro ⟨e, he⟩
        rw [cosineSimilarity_eq sqrtQ a b hlen] at he
        split_ifs at he
      · intro h
        exact absurd hlen h
    · intro _
      constructor
      · intro h0
        rw [cosineSimilarity_eq sqrtQ a b hlen]
        rw [if_pos]
        rcases h0 with h0 | h0
        · exact Or.inl ((hsq _ (sumSq_nonneg a)).mpr h0)
        · exact Or.inr ((hsq _ (sumSq_nonneg b)).mpr h0)
      · intro ha hb
        rw [cosineSimilarity_eq sqrtQ a b hlen]
        rw [if_neg]
        rintro (h0 | h0)
        · exact ha ((hsq _ (sumSq_nonneg a)).mp h0)
        · exact hb ((hsq _ (sumSq_nonneg b)).mp h0)
  · constructor
    · constructor
      · intro _
        exact hlen
      · intro _
        refine ⟨"Vectors must have the same length", ?_⟩
        rw [cosineSimilarity, if_pos hlen]
    · intro h
      exact absurd h hlen

/-- A square root exact at the points where the C9 witness evaluates it,
and vanishing only at 0. -/
def sqrtW : ℚ → ℚ := fun x =>
  if x = 0 then 0 else if x = 25 then 5 else 1

theorem sqrtW_vanishes : ∀ x : ℚ, 0 ≤ x → (sqrtW x = 0 ↔ x = 0) := by
  intro x _
  unfold sqrtW
  split_ifs with h1 h2
  · simp [h1]
  · simp [h2]
  · simp [h1]

/-! ### Spec-side formulas for the ML-stage scaling -/

/-- The header similarity after the suspicious (+25%) and short-all-caps
(+15%) multipliers, as the spec describes them. -/
def scaledHeaderSim (headerSim0 : ℚ) (f : FeatureSet) : ℚ :=
  if f.wordCount ≤ 2 ∧ f.hasAllCaps = true ∧ f.charCount ≤ 20 then
    (if f.isSuspicious then headerSim0 * (5/4) else headerSim0) * (23/20)
  else
    (if f.isSuspicious then headerSim0 * (5/4) else headerSim0)

/-- The lyric similarity after the lyric-context (+15%) and
long-line-with-keyword (+20%) multipliers, as the spec describes them. -/
def scaledLyricSim (lyricSim0 : ℚ) (f : FeatureSet) (ctx : Context) : ℚ :=
  if f.wordCount ≥ 4 ∧ f.containsStructuralKeyword = true then
    (if ctx.surroundingLyricCount ≥ 3 then lyricSim0 * (23/20) else lyricSim0) * (6/5)
  else
    (if ctx.surroundingLyricCount ≥ 3 then lyricSim0 * (23/20) else lyricSim0)

/-- Characterisation of `classifyWithML` when the backend and both cosine
computations succeed. -/
theorem classifyWithML_char (env : Env) (line : List Char) (hc lc : List ℚ)
    (f : FeatureSet) (ctx : Context) (e : List ℚ) (h0 l0 : ℚ)
    (he : env.embed (normalizeForML line) = .ok e)
    (hh : cosineSimilarity env.sqrtQ e hc = .ok h0)
    (hl : cosineSimilarity env.sqrtQ e lc = .ok l0) :
    classifyWithML env line hc lc f ctx =
      .ok { type := if scaledLyricSim l0 f ctx < scaledHeaderSim h0 f then .header else .lyric,
            confidence := |scaledHeaderSim h0 f - scaledLyricSim l0 f ctx|,
            headerSim := scaledHeaderSim h0 f,
            lyricSim := scaledLyricSim l0 f ctx,
            features := f } := by
  rw [classifyWithML, he]
  show (cosineSimilarity env.sqrtQ e hc).bind _ = _
  rw [hh]
  show (cosineSimilarity env.sqrtQ e lc).bind _ = _
  rw [hl]
  show Except.ok _ = _
  rw [scaledHeaderSim, scaledLyricSim]
  congr 1
  simp only [gt_iff_lt, sub_pos]

/-- C3: for a line handled by the ML stage, the classifier computes the two
cosine similarities, applies the four context multipliers (+15% lyric on
high surrounding-lyric count, +25% header on the suspicious flag, +15%
header on short all-caps lines, +20% lyric on long keyword-bearing lines),
picks the type with the greater scaled similarity, and reports the absolute
difference of the scaled similarities as confidence. -/
theorem claim_C3_ml_context_scaling (env : Env) (line : List Char) (hc lc : List ℚ)
    (f : FeatureSet) (ctx : Context) (e : List ℚ) (h0 l0 : ℚ)
    (he : env.embed (normalizeForML line) = .ok e)
    (hh : cosineSimilarity env.sqrtQ e hc = .ok h0)
    (hl : cosineSimilarity env.sqrtQ e lc = .ok l0) :
    classifyWithML env line hc lc f ctx =
      .ok { type := if scaledLyricSim l0 f ctx < scaledHeaderSim h0 f then .header else .lyric,
            confidence := |scaledHeaderSim h0 f - scaledLyricSim l0 f ctx|,
            headerSim := scaledHeaderSim h0 f,
            lyricSim := scaledLyricSim l0 f ctx,
            features := f } :=
  classifyWithML_char env line hc lc f ctx e h0 l0 he hh hl

/-- C10: the ML stage verdict is Header only for a strictly greater scaled
header similarity; an exact tie yields Lyric with confidence 0. -/
theorem claim_C10_tie_never_header (env : Env) (line : List Char) (hc lc : List ℚ)
    (f : FeatureSet) (ctx : Context) (e : List ℚ) (h0 l0 : ℚ)
    (he : env.embed (normalizeForML line) = .ok e)
    (hh : cosineSimilarity env.sqrtQ e hc = .ok h0)
    (hl : cosineSimilarity env.sqrtQ e lc = .ok l0) :
    (∀ m, classifyWithML env line hc lc f ctx = .ok m →
        (m.type = .header ↔ scaledLyricSim l0 f ctx < scaledHeaderSim h0 f)) ∧
    (scaledHeaderSim h0 f = scaledLyricSim l0 f ctx →
      classifyWithML env line hc lc f ctx =
        .ok { type := .lyric, confidence := 0, headerSim := scaledHeaderSim h0 f,
              lyricSim := scaledLyricSim l0 f ctx, features := f }) := by
  have hchar := classifyWithML_char env line hc lc f ctx e h0 l0 he hh hl
  constructor
  · intro m hm
    rw [hchar] at hm
    obtain rfl : _ = m := Except.ok.inj hm
    by_cases hlt : scaledLyricSim l0 f ctx < scaledHeaderSim h0 f
    · simp [hlt]
    · simp [hlt]
  · intro htie
    rw [hchar, htie]
    simp

theorem checkSafeHeader_trim (l : List Char) :
    checkSafeHeader (trimChars l) =
      if (trimChars l).isEmpty then none
      else if safeMatch (trimChars l) then some safeHeaderCls else none := by
  unfold checkSafeHeader
  rw [trimChars_idem]
  rfl

/-- Does the line leave the classifier state machine before the ML stage
(Empty, SAFE rule, or one of the two heuristic bypasses)? -/
def resolvedWithoutML (line : List Char) (ctx : Context) : Bool :=
  let t := trimChars line
  let f := extractFeatures t ctx
  t.isEmpty || safeMatch t ||
    decide (f.wordCount ≥ 5 ∧ f.isSuspicious = false) ||
    decide (f.wordCount ≤ 3 ∧ t.any (fun c => c = '!') = true ∧
      f.containsStructuralKeyword = false)

/-- The value of `classifyLine` on a line resolved before the ML stage:
it does not depend on the environment or the centroids. -/
theorem classifyLine_non_ml (env : Env) (line : List Char)
    (hc lc : Option (List ℚ)) (ctx : Context)
    (h : resolvedWithoutML line ctx = true) :
    classifyLine env line hc lc ctx =
      (if (trimChars line).isEmpty then .ok { type := .empty, confidence := 1, method := .rule }
       else if safeMatch (trimChars line) then .ok safeHeaderCls
       else if (extractFeatures (trimChars line) ctx).wordCount ≥ 5 ∧
           (extractFeatures (trimChars line) ctx).isSuspicious = false then
         .ok { type := .lyric, confidence := 19/20, method := .heuristicLength,
               features := some (extractFeatures (trimChars line) ctx) }
       else
         .ok { type := .lyric, confidence := 17/20, method := .heuristicExclamation,
               features := some (extractFeatures (trimChars line) ctx) }) := by
  by_cases h0 : (trimChars line).isEmpty = true
  · simp [classifyLine, h0]
  · rw [if_neg h0]
    by_cases h1 : safeMatch (trimChars line) = true
    · rw [if_pos h1]
      unfold classifyLine
      rw [if_neg h0]
      simp only [USE_HYBRID_APPROACH, if_pos rfl, checkSafeHeader_trim, if_neg h0, if_pos h1]
      rfl
    · rw [if_neg h1]
      unfold classifyLine
      rw [if_neg h0]
      simp only [USE_HYBRID_APPROACH, if_pos rfl, checkSafeHeader_trim, if_neg h0,
        if_neg h1, Bool.false_eq_true]
      by_cases h2 : (extractFeatures (trimChars line) ctx).wordCount ≥ 5 ∧
          (extractFeatures (trimChars line) ctx).isSuspicious = false
      · rw [if_pos h2, if_pos h2]
        rfl
      · rw [if_neg h2, if_neg h2]
        by_cases h3 : (extractFeatures (trimChars line) ctx).wordCount ≤ 3 ∧
            (trimChars line).any (fun c => c = '!') = true ∧
            (extractFeatures (trimChars line) ctx).containsStructuralKeyword = false
        · rw [if_pos h3]
          rfl
        · exfalso
          simp only [resolvedWithoutML, Bool.or_eq_true, decide_eq_true_eq] at h
          rcases h with ((h | h) | h) | h
          · exact h0 h
          · exact h1 h
          · exact h2 h
          · exact h3 h

/-- A line that reaches the ML stage with a missing centroid raises the
centroid error. -/
theorem classifyLine_missing_centroid (env : Env) (line : List Char)
    (hc lc : Option (List ℚ)) (ctx : Context)
    (h : resolvedWithoutML line ctx = false) (hnone : hc = none ∨ lc = none) :
    classifyLine env line hc lc ctx =
      .error "ML classification requires headerCentroid and lyricCentroid" := by
  simp only [resolvedWithoutML, Bool.or_eq_false_iff, decide_eq_false_iff_not] at h
  obtain ⟨⟨⟨ha, hb⟩, h2⟩, h3⟩ := h
  have h0 : ¬((trimChars line).isEmpty = true) := by simp [ha]
  have h1 : ¬(safeMatch (trimChars line) = true) := by simp [hb]
  unfold classifyLine
  rw [if_neg h0]
  simp only [USE_HYBRID_APPROACH, if_pos rfl, checkSafeHeader_trim, if_neg h0,
    if_neg h1]
  rw [if_neg h2, if_neg h3]
  rcases hnone with rfl | rfl
  · rfl
  · cases hc <;> rfl

/-- C7: a line resolved as Empty, by a SAFE rule, or by a heuristic bypass
classifies identically under every environment (the embedding backend is
never consulted) and succeeds with both centroids absent; a line that does
reach the ML stage with a centroid missing raises the centroid error, for
every environment. -/
theorem claim_C7_backend_isolation :
    (∀ env env' line hc lc ctx, resolvedWithoutML line ctx = true →
      classifyLine env line hc lc ctx = classifyLine env' line hc lc ctx) ∧
    (∀ env line ctx, resolvedWithoutML line ctx = true →
      ∃ c, classifyLine env line none none ctx = .ok c) ∧
    (∀ env line hc lc ctx, resolvedWithoutML line ctx = false →
      hc = none ∨ lc = none →
      classifyLine env line hc lc ctx =
        .error "ML classification requires headerCentroid and lyricCentroid") := by
  refine ⟨?_, ?_, ?_⟩
  · intro env env' line hc lc ctx h
    rw [classifyLine_non_ml env line hc lc ctx h, classifyLine_non_ml env' line hc lc ctx h]
  · intro env line ctx h
    rw [classifyLine_non_ml env line none none ctx h]
    split_ifs <;> exact ⟨_, rfl⟩
  · intro env line hc lc ctx h hnone
    exact classifyLine_missing_centroid env line hc lc ctx h hnone

/-- Unfolding `classifyLine` to the ML stage when no earlier stage fires
and both centroids are present. -/
theorem classifyLine_ml_branch (env : Env) (line : List Char) (hcv lcv : List ℚ)
    (ctx : Context) (hres : resolvedWithoutML line ctx = false) :
    classifyLine env line (some hcv) (some lcv) ctx =
      (classifyWithML env (trimChars line) hcv lcv
        (extractFeatures (trimChars line) ctx) ctx).bind (fun mlResult =>
          if mlResult.confidence < CONFIDENCE_THRESHOLD then
            if (extractFeatures (trimChars line) ctx).isSuspicious = true ∧
                mlResult.headerSim > mlResult.lyricSim * (9/10) then
              .ok { mlResult.toClassification with type := .header, biasApplied := true }
            else
              .ok { mlResult.toClassification with type := .uncertain, isAmbiguous := true }
          else
            .ok mlResult.toClassification) := by
  simp only [resolvedWithoutML, Bool.or_eq_false_iff, decide_eq_false_iff_not] at hres
  obtain ⟨⟨⟨ha, hb⟩, h2⟩, h3⟩ := hres
  have h0 : ¬((trimChars line).isEmpty = true) := by simp [ha]
  have h1 : ¬(safeMatch (trimChars line) = true) := by simp [hb]
  unfold classifyLine
  rw [if_neg h0]
  simp only [USE_HYBRID_APPROACH, if_pos rfl, checkSafeHeader_trim, if_neg h0, if_neg h1]
  rw [if_neg h2, if_neg h3]
  rfl

/-- C4 (amended): for a line reaching the ML stage whose margin confidence
falls below the 0.10 threshold, the verdict is Uncertain, except that a
suspicious line whose header similarity *strictly exceeds* 90% of its
lyric similarity is biased to Header with the same confidence. -/
theorem claim_C4_low_confidence (env : Env) (line : List Char) (hcv lcv : List ℚ)
    (ctx : Context) (m : MLRes)
    (hres : resolvedWithoutML line ctx = false)
    (hm : classifyWithML env (trimChars line) hcv lcv
      (extractFeatures (trimChars line) ctx) ctx = .ok m)
    (hconf : m.confidence < CONFIDENCE_THRESHOLD) :
    classifyLine env line (some hcv) (some lcv) ctx =
      if (extractFeatures (trimChars line) ctx).isSuspicious = true ∧
          m.headerSim > m.lyricSim * (9/10) then
        .ok { m.toClassification with type := .header, biasApplied := true }
      else
        .ok { m.toClassification with type := .uncertain, isAmbiguous := true } := by
  rw [classifyLine_ml_branch env line hcv lcv ctx hres, hm]
  show (if m.confidence < CONFIDENCE_THRESHOLD then _ else _) = _
  rw [if_pos hconf]

theorem scaledHeaderSim_bound (h0 : ℚ) (f : FeatureSet)
    (hlo : -1 ≤ h0) (hhi : h0 ≤ 1) : |scaledHeaderSim h0 f| ≤ 23/16 := by
  unfold scaledHeaderSim
  split_ifs <;> rw [abs_le] <;> constructor <;> linarith

theorem scaledLyricSim_bound (l0 : ℚ) (f : FeatureSet) (ctx : Context)
    (hlo : -1 ≤ l0) (hhi : l0 ≤ 1) : |scaledLyricSim l0 f ctx| ≤ 69/50 := by
  unfold scaledLyricSim
  split_ifs <;> rw [abs_le] <;> constructor <;> linarith

theorem bindOkInv {α β : Type} (x : Except String α) (k : α → Except String β) (m : β)
    (h : Bind.bind x k = Except.ok m) : ∃ v, x = Except.ok v ∧ k v = Except.ok m := by
  cases x with
  | error s => cases h
  | ok v => exact ⟨v, rfl, h⟩

theorem ok_bind {α β : Type} (v : α) (k : α → Except String β) :
    (Except.ok v : Except String α).bind k = k v := rfl

theorem bind_ok {α β : Type} (v : α) (k : α → Except String β) :
    Bind.bind (Except.ok v : Except String α) k = k v := rfl

/-- Inversion of a successful `classifyWithML` run: the backend and both
cosine computations succeeded and the result has the characterised shape. -/
theorem classifyWithML_ok_inv (env : Env) (line : List Char) (hcv lcv : List ℚ)
    (f : FeatureSet) (ctx : Context) (m : MLRes)
    (hm : classifyWithML env line hcv lcv f ctx = .ok m) :
    ∃ e h0 l0, env.embed (normalizeForML line) = .ok e ∧
      cosineSimilarity env.sqrtQ e hcv = .ok h0 ∧
      cosineSimilarity env.sqrtQ e lcv = .ok l0 ∧
      m = { type := if scaledLyricSim l0 f ctx < scaledHeaderSim h0 f then .header else .lyric,
            confidence := |scaledHeaderSim h0 f - scaledLyricSim l0 f ctx|,
            headerSim := scaledHeaderSim h0 f, lyricSim := scaledLyricSim l0 f ctx,
            features := f } := by
  have hm' := hm
  unfold classifyWithML at hm'
  obtain ⟨e, he, hm'⟩ := bindOkInv _ _ _ hm'
  obtain ⟨h0, hh, hm'⟩ := bindOkInv _ _ _ hm'
  obtain ⟨l0, hl, _⟩ := bindOkInv _ _ _ hm'
  refine ⟨e, h0, l0, he, hh, hl, ?_⟩
  have hchar := classifyWithML_char env line hcv lcv f ctx e h0 l0 he hh hl
  rw [hchar] at hm
  exact (Except.ok.inj hm).symm

/-- The possible outcomes of a successful `classifyLine` run. -/
theorem classifyLine_ok_cases (env : Env) (line : List Char)
    (hc lc : Option (List ℚ)) (ctx : Context) (cls : Classification)
    (h : classifyLine env line hc lc ctx = .ok cls) :
    (cls.confidence = 1 ∧ cls.method ≠ .mlContext) ∨
    (cls.confidence = 19/20 ∧ cls.method ≠ .mlContext) ∨
    (cls.confidence = 17/20 ∧ cls.method ≠ .mlContext) ∨
    (∃ hcv lcv m, hc = some hcv ∧ lc = some lcv ∧
      classifyWithML env (trimChars line) hcv lcv
        (extractFeatures (trimChars line) ctx) ctx = .ok m ∧
      cls.confidence = m.confidence ∧ cls.method = .mlContext) := by
  by_cases hres : resolvedWithoutML line ctx = true
  · rw [classifyLine_non_ml env line hc lc ctx hres] at h
    split_ifs at h <;> rw [← Except.ok.inj h] <;> simp [safeHeaderCls]
  · rw [Bool.not_eq_true] at hres
    cases hc with
    | none =>
      rw [classifyLine_missing_centroid env line none lc ctx hres (Or.inl rfl)] at h
      cases h
    | some hcv =>
      cases lc with
      | none =>
        rw [classifyLine_missing_centroid env line (some hcv) none ctx hres (Or.inr rfl)] at h
        cases h
      | some lcv =>
        rw [classifyLine_ml_branch env line hcv lcv ctx hres] at h
        cases hml : classifyWithML env (trimChars line) hcv lcv
            (extractFeatures (trimChars line) ctx) ctx with
        | error s =>
          rw [hml] at h
          cases h
        | ok m =>
          rw [hml] at h
          simp only [ok_bind] at h
          refine Or.inr (Or.inr (Or.inr ⟨hcv, lcv, m, rfl, rfl, hml, ?_⟩))
          split_ifs at h <;> rw [← Except.ok.inj h] <;> exact ⟨rfl, rfl⟩

/-- An Uncertain verdict is produced only in the sub-threshold branch of
`classifyLine`, so it always carries a confidence below the 0.10
threshold. -/
theorem classifyLine_uncertain_conf (env : Env) (line : List Char)
    (hc lc : Option (List ℚ)) (ctx : Context) (cls : Classification)
    (h : classifyLine env line hc lc ctx = .ok cls) (ht : cls.type = .uncertain) :
    cls.confidence < CONFIDENCE_THRESHOLD := by
  by_cases hres : resolvedWithoutML line ctx = true
  · rw [classifyLine_non_ml env line hc lc ctx hres] at h
    split_ifs at h <;> rw [← Except.ok.inj h] at ht <;> simp [safeHeaderCls] at ht
  · rw [Bool.not_eq_true] at hres
    cases hc with
    | none =>
      rw [classifyLine_missing_centroid env line none lc ctx hres (Or.inl rfl)] at h
      cases h
    | some hcv =>
      cases lc with
      | none =>
        rw [classifyLine_missing_centroid env line (some hcv) none ctx hres (Or.inr rfl)] at h
        cases h
      | some lcv =>
        rw [classifyLine_ml_branch env line hcv lcv ctx hres] at h
        cases hml : classifyWithML env (trimChars line) hcv lcv
            (extractFeatures (trimChars line) ctx) ctx with
        | error s =>
          rw [hml] at h
          cases h
        | ok m =>
          rw [hml] at h
          simp only [ok_bind] at h
          split_ifs at h with h1 h2
          · rw [← Except.ok.inj h] at ht
            simp [MLRes.toClassification] at ht
          · rw [← Except.ok.inj h]
            exact h1
          · obtain ⟨e, h0, l0, he, hh, hl, rfl⟩ :=
              classifyWithML_ok_inv env (trimChars line) hcv lcv
                (extractFeatures (trimChars line) ctx) ctx m hml
            rw [← Except.ok.inj h] at ht
            by_cases hcond : scaledLyricSim l0 (extractFeatures (trimChars line) ctx) ctx <
                scaledHeaderSim h0 (extractFeatures (trimChars line) ctx)
            · simp [MLRes.toClassification, hcond] at ht
            · simp [MLRes.toClassification, hcond] at ht

/-- The confidence interval delivered by one `classifyLine` call, under
the similarity-range hypothesis. -/
theorem classifyLine_conf_bound_core (env : Env)
    (hrange : ∀ (v c : List ℚ) (r : ℚ),
      cosineSimilarity env.sqrtQ v c = .ok r → -1 ≤ r ∧ r ≤ 1)
    (line : List Char) (hc lc : Option (List ℚ)) (ctx : Context) (cls : Classification)
    (h : classifyLine env line hc lc ctx = .ok cls) :
    0 ≤ cls.confidence ∧ cls.confidence ≤ 1127/400 ∧
      (cls.method ≠ .mlContext → cls.confidence ≤ 1) := by
  rcases classifyLine_ok_cases env line hc lc ctx cls h with
    ⟨hc1, hm1⟩ | ⟨hc1, hm1⟩ | ⟨hc1, hm1⟩ | ⟨hcv, lcv, m, _, _, hml, hc1, hm1⟩
  · rw [hc1]
    norm_num
  · rw [hc1]
    norm_num
  · rw [hc1]
    norm_num
  · obtain ⟨e, h0, l0, he, hh, hl, rfl⟩ :=
      classifyWithML_ok_inv env (trimChars line) hcv lcv
        (extractFeatures (trimChars line) ctx) ctx m hml
    rw [hc1]
    obtain ⟨hh1, hh2⟩ := hrange e hcv h0 hh
    obtain ⟨hl1, hl2⟩ := hrange e lcv l0 hl
    have bH := scaledHeaderSim_bound h0 (extractFeatures (trimChars line) ctx) hh1 hh2
    have bL := scaledLyricSim_bound l0 (extractFeatures (trimChars line) ctx) ctx hl1 hl2
    obtain ⟨bH1, bH2⟩ := abs_le.mp bH
    obtain ⟨bL1, bL2⟩ := abs_le.mp bL
    refine ⟨abs_nonneg _, ?_, ?_⟩
    · show |scaledHeaderSim h0 (extractFeatures (trimChars line) ctx) -
        scaledLyricSim l0 (extractFeatures (trimChars line) ctx) ctx| ≤ 1127/400
      rw [abs_le]
      constructor <;> linarith
    · intro hne
      exact absurd hm1 hne

/-- The full per-call confidence contract: the `[0, 1127/400]` interval,
the `[0, 1]` interval off the ML stage, and the `[0, 1]` interval (indeed
below the 0.10 threshold) for Uncertain verdicts. -/
theorem classifyLine_conf_bound (env : Env)
    (hrange : ∀ (v c : List ℚ) (r : ℚ),
      cosineSimilarity env.sqrtQ v c = .ok r → -1 ≤ r ∧ r ≤ 1)
    (line : List Char) (hc lc : Option (List ℚ)) (ctx : Context) (cls : Classification)
    (h : classifyLine env line hc lc ctx = .ok cls) :
    0 ≤ cls.confidence ∧ cls.confidence ≤ 1127/400 ∧
      (cls.method ≠ .mlContext → cls.confidence ≤ 1) ∧
      (cls.type = .uncertain → cls.confidence ≤ 1) := by
  obtain ⟨h1, h2, h3⟩ := classifyLine_conf_bound_core env hrange line hc lc ctx cls h
  refine ⟨h1, h2, h3, fun ht => ?_⟩
  have h4 := classifyLine_uncertain_conf env line hc lc ctx cls h ht
  unfold CONFIDENCE_THRESHOLD at h4
  linarith

theorem mapM_loop_mem {α β : Type} (f : α → Except String β) :
    ∀ (l : List α) (acc res : List β), List.mapM.loop f l acc = .ok res →
      ∀ b ∈ res, b ∈ acc ∨ ∃ a ∈ l, f a = .ok b := by
  intro l
  induction l with
  | nil =>
    intro acc res h b hb
    obtain rfl : acc.reverse = res := Except.ok.inj h
    exact Or.inl (List.mem_reverse.mp hb)
  | cons a t ih =>
    intro acc res h b hb
    rw [List.mapM.loop] at h
    obtain ⟨v, hv, h⟩ := bindOkInv _ _ _ h
    rcases ih (v :: acc) res h b hb with hmem | ⟨a', ha', hfa⟩
    · rcases List.mem_cons.mp hmem with rfl | hmem
      · exact Or.inr ⟨a, List.mem_cons_self a t, hv⟩
      · exact Or.inl hmem
    · exact Or.inr ⟨a', List.mem_cons_of_mem a ha', hfa⟩

/-- Every classification in a first-pass result list was produced by some
`classifyLine` call. -/
theorem pass1_mem (env : Env) (lines : List (List Char))
    (hc lc : Option (List ℚ)) (res : List Result)
    (h : pass1 env lines hc lc = .ok res) :
    ∀ r ∈ res, ∃ line ctx, classifyLine env line hc lc ctx = .ok r.cls := by
  intro r hr
  unfold pass1 at h
  rw [List.mapM] at h
  rcases mapM_loop_mem _ _ _ _ h r hr with hmem | ⟨i, _, hfi⟩
  · cases hmem
  · obtain ⟨c, hcl, hok⟩ := bindOkInv _ _ _ hfi
    obtain rfl : _ = r := Except.ok.inj hok
    exact ⟨(lines.get? i).getD [], mkContext lines i 0, hcl⟩

/-- The second-pass loop preserves any property of the carried
classifications that `classifyLine` outputs enjoy. -/
theorem pass2go_preserve (env : Env) (lines : List (List Char))
    (hc lc : Option (List ℚ)) (P : Classification → Prop)
    (hP : ∀ line ctx c, classifyLine env line hc lc ctx = .ok c → P c) :
    ∀ (fuel : Nat) (results : List Result) (i : Nat) (res : List Result),
      pass2go env lines hc lc results i fuel = .ok res →
      (∀ r ∈ results, P r.cls) → ∀ r ∈ res, P r.cls := by
  intro fuel
  induction fuel with
  | zero =>
    intro results i res h hall
    obtain rfl : results = res := Except.ok.inj h
    exact hall
  | succ fuel ih =>
    intro results i res h hall
    rw [pass2go] at h
    cases hget : results.get? i with
    | none =>
      rw [hget] at h
      obtain rfl : results = res := Except.ok.inj h
      exact hall
    | some r =>
      rw [hget] at h
      dsimp only at h
      by_cases hflag : needsReeval r = true
      · rw [if_pos hflag] at h
        obtain ⟨u, hu, h⟩ := bindOkInv _ _ _ h
        refine ih _ _ _ h ?_
        intro r' hr'
        rcases List.mem_or_eq_of_mem_set hr' with hmem | rfl
        · exact hall r' hmem
        · exact hP _ _ _ hu
      · rw [if_neg hflag] at h
        exact ih _ _ _ h hall

/-- C6 (amended): given cosine similarities in `[-1, 1]`, every
classification the classifier produces — from `classifyLine` directly and
in both passes of `classifyLines` — carries a confidence in
`[0, 1127/400]`; the Empty, SAFE and heuristic stages (everything off the
ML stage) and every Uncertain verdict stay within `[0, 1]`, but the ML
margin may reach `23/16 + 69/50 = 1127/400 = 2.8175` and in particular
exceed 1. -/
theorem claim_C6_confidence_range (env : Env)
    (hrange : ∀ (v c : List ℚ) (r : ℚ),
      cosineSimilarity env.sqrtQ v c = .ok r → -1 ≤ r ∧ r ≤ 1) :
    (∀ (line : List Char) (hc lc : Option (List ℚ)) (ctx : Context)
        (cls : Classification), classifyLine env line hc lc ctx = .ok cls →
      0 ≤ cls.confidence ∧ cls.confidence ≤ 1127/400 ∧
        (cls.method ≠ .mlContext → cls.confidence ≤ 1) ∧
        (cls.type = .uncertain → cls.confidence ≤ 1)) ∧
    (∀ (lines : List (List Char)) (hc lc : Option (List ℚ)) (res : List Result),
        classifyLines env lines hc lc = .ok res → ∀ r ∈ res,
      0 ≤ r.cls.confidence ∧ r.cls.confidence ≤ 1127/400 ∧
        (r.cls.method ≠ .mlContext → r.cls.confidence ≤ 1) ∧
        (r.cls.type = .uncertain → r.cls.confidence ≤ 1)) := by
  constructor
  · intro line hc lc ctx cls h
    exact classifyLine_conf_bound env hrange line hc lc ctx cls h
  · intro lines hc lc res h r hr
    unfold classifyLines at h
    obtain ⟨results, hp1, hp2⟩ := bindOkInv _ _ _ h
    refine pass2go_preserve env lines hc lc _
      (fun line ctx c hcl => classifyLine_conf_bound env hrange line hc lc ctx c hcl)
      results.length results 0 res hp2 ?_ r hr
    intro r' hr'
    obtain ⟨line', ctx', hcl'⟩ := pass1_mem env lines hc lc results hp1 r' hr'
    exact classifyLine_conf_bound env hrange line' hc lc ctx' r'.cls hcl'

/-- The similarity-range hypothesis of C6 holds for `envB`, whose square
root is constantly 0 (so `cosineSimilarity` always returns 0). -/
theorem envB_sim_range : ∀ (v c : List ℚ) (r : ℚ),
    cosineSimilarity envB.sqrtQ v c = .ok r → -1 ≤ r ∧ r ≤ 1 := by
  intro v c r h
  by_cases hlen : v.length = c.length
  · rw [cosineSimilarity_eq envB.sqrtQ v c hlen] at h
    simp only [envB] at h
    norm_num at h
    simp [← h]
  · rw [cosineSimilarity, if_pos (by simpa using hlen)] at h
    cases h

theorem get_append_len {α : Type} (l1 : List α) (r : α) (rest : List α) :
    (l1 ++ r :: rest).get? l1.length = some r := by
  induction l1 with
  | nil => rfl
  | cons a t ih => simpa using ih

theorem set_append_len {α : Type} (l1 : List α) (r : α) (rest : List α) (x : α) :
    (l1 ++ r :: rest).set l1.length x = l1 ++ x :: rest := by
  induction l1 with
  | nil => rfl
  | cons a t ih => simp [ih]

/-- The index-based second-pass loop agrees with its structural rendering:
processing the suffix `todo` with the prefix `done` already re-evaluated. -/
theorem pass2go_eq_spec (env : Env) (lines : List (List Char))
    (hc lc : Option (List ℚ)) (todo : List Result) :
    ∀ done : List Result,
      pass2go env lines hc lc (done ++ todo) done.length todo.length =
        pass2spec env lines hc lc done todo := by
  induction todo with
  | nil =>
    intro done
    simp [pass2go, pass2spec]
  | cons r rest ih =>
    intro done
    rw [show (r :: rest).length = rest.length + 1 from rfl]
    rw [pass2go, get_append_len done r rest]
    dsimp only
    by_cases hflag : needsReeval r = true
    · rw [if_pos hflag, pass2spec]
      dsimp only
      rw [if_pos hflag]
      cases hcl : classifyLine env ((lines.get? done.length).getD []) hc lc
          (mkContext lines done.length
            (countSurroundingLyrics (done ++ r :: rest) done.length)) with
      | error s => rfl
      | ok u =>
        simp only [bind_ok]
        rw [set_append_len]
        have h2 := ih (done ++
          [{ text := (lines.get? done.length).getD [], cls := u, reprocessed := true }])
        simpa using h2
    · rw [if_neg hflag, pass2spec]
      dsimp only
      rw [if_neg hflag]
      have h2 := ih (done ++ [r])
      simpa using h2

/-- C5 (amended): `classifyLines` is the first pass followed by one
structural second pass that re-evaluates exactly the flagged first-pass
results (Uncertain, suspicious features, or Header with confidence below
0.3), in index order and exactly once each, replacing the verdict and
tagging it reprocessed; the surrounding-lyric count at each step is taken
over the current array, whose smaller indices may already hold second-pass
verdicts (not over the pass-1 verdicts). -/
theorem claim_C5_two_pass_structure (env : Env) (lines : List (List Char))
    (hc lc : Option (List ℚ)) :
    classifyLines env lines hc lc =
      (pass1 env lines hc lc).bind
        (fun results => pass2spec env lines hc lc [] results) := by
  unfold classifyLines
  cases hp : pass1 env lines hc lc with
  | error s => rfl
  | ok results =>
    simp only [ok_bind]
    exact pass2go_eq_spec env lines hc lc results []

/-- The six-line scenario exhibiting the in-place second pass. -/
def linesC5 : List (List Char) :=
  ["Walking down the street at night".toList, "I cant believe youre gone".toList,
   "DROP".toList, "Dancing in the moonlight with you".toList, "BEAT".toList,
   "Hold me close tonight my dear".toList]

/-- A header centroid giving cosine similarity 20/29 to the test embedding. -/
def hcC5 : List ℚ := [20/29, 21/29]

/-- A lyric centroid giving cosine similarity 24/25 to the test embedding. -/
def lcC5 : List ℚ := [24/25, 7/25]

section RatComputation

attribute [local semireducible] Rat.mul Rat.add Rat.sub Rat.inv

/-- C2: the end-to-end scenario yields `[Header, Lyric, Header, Lyric,
Empty]` in order, for every environment and every centroid pair. -/
theorem claim_C2_end_to_end (env : Env) (hc lc : Option (List ℚ)) :
    (classifyLines env endToEndLines hc lc).map (fun rs => rs.map (fun r => r.cls.type)) =
      .ok [.header, .lyric, .header, .lyric, .empty] := by
  set_option maxHeartbeats 4000000 in rfl

/-- Witness for C9: a length mismatch errors; a zero vector yields 0; two
equal vectors of magnitude 5 yield similarity 1. -/
theorem claim_C9_witness :
    (∃ e, cosineSimilarity sqrtW [1] [1, 2] = .error e) ∧
    cosineSimilarity sqrtW [0, 0] [3, 4] = .ok 0 ∧
    cosineSimilarity sqrtW [3, 4] [3, 4] = .ok 1 := by
  refine ⟨?_, ?_, ?_⟩
  · exact (claim_C9_cosine_error_contract sqrtW sqrtW_vanishes [1] [1, 2]).1.mpr (by decide)
  · exact ((claim_C9_cosine_error_contract sqrtW sqrtW_vanishes [0, 0] [3, 4]).2 rfl).1
      (Or.inl (by decide))
  · have h := ((claim_C9_cosine_error_contract sqrtW sqrtW_vanishes [3, 4] [3, 4]).2 rfl).2
      (by decide) (by decide)
    rw [h]
    decide

/-- A feature set as extracted for the line `"DROP"`. -/
def featANM : FeatureSet :=
  { wordCount := 1, charCount := 4, hasAllCaps := true, hasBrackets := false,
    hasParentheses := false, startsWithNumber := false, endsWithColon := false,
    containsStructuralKeyword := true, isSuspicious := true, previousLineEmpty := true,
    nextLineEmpty := true, positionInGroup := .unknown }

/-- A feature set as extracted for the line `"hello"`. -/
def featPlain : FeatureSet :=
  { wordCount := 1, charCount := 5, hasAllCaps := false, hasBrackets := false,
    hasParentheses := false, startsWithNumber := false, endsWithColon := false,
    containsStructuralKeyword := false, isSuspicious := false, previousLineEmpty := true,
    nextLineEmpty := true, positionInGroup := .unknown }

/-- Witness for C3: a suspicious short all-caps line with similarities 1
and 0 gets header similarity scaled to 23/16 and is classified Header. -/
theorem claim_C3_witness :
    classifyWithML envA "DROP".toList [1, 0] [0, 1] featANM {} =
      .ok { type := .header, confidence := 23/16, headerSim := 23/16, lyricSim := 0,
            features := featANM } := by
  have h := claim_C3_ml_context_scaling envA "DROP".toList [1, 0] [0, 1] featANM {}
    [1, 0] 1 0 rfl (by decide) (by decide)
  rw [h]
  decide

/-- Witness for C7: a SAFE line classifies identically under a working and
a failed backend, a long lyric line still succeeds with no centroids under
the failed backend, and a line needing the ML stage errors without
centroids. -/
theorem claim_C7_witness :
    classifyLine envB "CHORUS".toList none none {} =
      classifyLine envA "CHORUS".toList none none {} ∧
    (∃ c, classifyLine envB "Walking down the street at night".toList none none {} = .ok c) ∧
    classifyLine envB "hello".toList none none {} =
      .error "ML classification requires headerCentroid and lyricCentroid" := by
  refine ⟨?_, ?_, ?_⟩
  · exact claim_C7_backend_isolation.1 envB envA "CHORUS".toList none none {} (by decide)
  · exact claim_C7_backend_isolation.2.1 envB
      "Walking down the street at night".toList {} (by decide)
  · exact claim_C7_backend_isolation.2.2 envB "hello".toList none none {}
      (by decide) (Or.inl rfl)

/-- The line `"*do it again*"`, flagged suspicious by the `*annotation*`
direction pattern. -/
def starLine : List Char := "*do it again*".toList

/-- The features extracted for `starLine`. -/
def featStar : FeatureSet :=
  { wordCount := 3, charCount := 13, hasAllCaps := false, hasBrackets := false,
    hasParentheses := false, startsWithNumber := false, endsWithColon := false,
    containsStructuralKeyword := false, isSuspicious := true, previousLineEmpty := true,
    nextLineEmpty := true, positionInGroup := .unknown }

/-- A backend embedding every text as `[1, 0, 0]`, with a square root exact
at 1 and 729 (the only squared magnitudes it meets). -/
def envC4 : Env :=
  { embed := fun _ => .ok [1, 0, 0],
    sqrtQ := fun x => if x = 1 then 1 else if x = 729 then 27 else 0 }

/-- Counterexample for C4: `"*do it again*"` is suspicious, its ML stage
yields header similarity 5/6 and lyric similarity 25/27 with confidence
5/54 < 0.10, and the header similarity equals exactly 90% of the lyric
similarity; the claim ("at least 90%") then demands a Header verdict, but
the code's strict comparison produces Uncertain. -/
theorem claim_C4_counterexample :
    (extractFeatures (trimChars starLine) {}).isSuspicious = true ∧
    ((5 : ℚ)/6) ≥ ((25 : ℚ)/27) * (9/10) ∧
    ((5 : ℚ)/54) < CONFIDENCE_THRESHOLD ∧
    classifyLine envC4 starLine (some [18, 18, 9]) (some [25, 10, 2]) {} =
      .ok { type := .uncertain, confidence := 5/54, method := .mlContext,
            features := some featStar, headerSim := some (5/6), lyricSim := some (25/27),
            biasApplied := false, isAmbiguous := true } := by
  refine ⟨by decide, by decide, by decide, by decide⟩

/-- Witness for C4 (amended): with lyric similarity 8/9 the header
similarity 5/6 strictly exceeds 90% of it, so the sub-threshold verdict is
biased to Header with the same confidence 1/18. -/
theorem claim_C4_witness :
    classifyLine envC4 starLine (some [18, 18, 9]) (some [24, 12, 3]) {} =
      .ok { type := .header, confidence := 1/18, method := .mlContext,
            features := some featStar, headerSim := some (5/6), lyricSim := some (8/9),
            biasApplied := true, isAmbiguous := false } := by
  have h := claim_C4_low_confidence envC4 starLine [18, 18, 9] [24, 12, 3] {}
    { type := .lyric, confidence := 1/18, headerSim := 5/6, lyricSim := 8/9,
      features := featStar }
    (by decide) (by decide) (by decide)
  rw [h]
  decide

/-- Witness for C10: equal centroids force an exact tie, classified Lyric
with confidence 0. -/
theorem claim_C10_witness :
    classifyWithML envA "hello".toList [1, 0] [1, 0] featPlain {} =
      .ok { type := .lyric, confidence := 0, headerSim := scaledHeaderSim 1 featPlain,
            lyricSim := scaledLyricSim 1 featPlain {}, features := featPlain } :=
  (claim_C10_tie_never_header envA "hello".toList [1, 0] [1, 0] featPlain {}
    [1, 0] 1 1 rfl (by decide) (by decide)).2 (by decide)

/-- Counterexample for C6: with cosine similarities 1 and −1 (both within
`[-1, 1]`), the line `"hello"` reaches the ML stage and is classified with
confidence 2, outside the claimed interval `[0, 1]`. -/
theorem claim_C6_counterexample :
    cosineSimilarity envA.sqrtQ [1, 0] [1, 0] = .ok 1 ∧
    cosineSimilarity envA.sqrtQ [1, 0] [(-1 : ℚ), 0] = .ok (-1) ∧
    |(1 : ℚ)| ≤ 1 ∧ |(-1 : ℚ)| ≤ 1 ∧
    classifyLine envA "hello".toList (some [1, 0]) (some [(-1 : ℚ), 0]) {} =
      .ok { type := .header, confidence := 2, method := .mlContext,
            features := some featPlain, headerSim := some 1, lyricSim := some (-1),
            biasApplied := false, isAmbiguous := false } ∧
    ¬((2 : ℚ) ≤ 1) := by
  refine ⟨by decide, by decide, by decide, by decide, by decide, by decide⟩

/-- Witness for C6 (amended) at the empty line under the constantly-zero
square root, whose cosine similarities all satisfy the range hypothesis. -/
theorem claim_C6_witness :
    0 ≤ (1 : ℚ) ∧ (1 : ℚ) ≤ 1127/400 ∧
      (MethodTag.rule ≠ MethodTag.mlContext → (1 : ℚ) ≤ 1) ∧
      (LType.empty = LType.uncertain → (1 : ℚ) ≤ 1) :=
  (claim_C6_confidence_range envB envB_sim_range).1 "".toList none none {}
    { type := .empty, confidence := 1, method := .rule } rfl

/-- Counterexample for C5: in the six-line scenario the pass-1 verdicts
are `[Lyric, Lyric, Header, Lyric, Header, Lyric]` and give line 4 only 2
confirmed-lyric neighbours; a reclassification of line 4 at count 2 (the
claim's "computed from the pass-1 verdicts") keeps it Header, yet the
actual second pass classifies it Lyric, because line 2 had already been
flipped to Lyric in the same sweep. -/
theorem claim_C5_counterexample :
    (pass1 envA linesC5 (some hcC5) (some lcC5)).map
        (fun rs => rs.map (fun r => r.cls.type)) =
      .ok [.lyric, .lyric, .header, .lyric, .header, .lyric] ∧
    (pass1 envA linesC5 (some hcC5) (some lcC5)).map
        (fun rs => countSurroundingLyrics rs 4) = .ok 2 ∧
    (classifyLine envA "BEAT".toList (some hcC5) (some lcC5)
        (mkContext linesC5 4 2)).map (fun c => c.type) = .ok .header ∧
    (classifyLines envA linesC5 (some hcC5) (some lcC5)).map
        (fun rs => rs.map (fun r => (r.cls.type, r.reprocessed))) =
      .ok [(.lyric, false), (.lyric, false), (.lyric, true), (.lyric, false),
           (.lyric, true), (.lyric, false)] := by
  exact ⟨by rfl, by rfl, by rfl, by rfl⟩

/-- C5 witness-style consequence at the concrete scenario: the amended
structural second pass reproduces the classifier's output. -/
theorem claim_C5_structure_at_scenario :
    (pass1 envA linesC5 (some hcC5) (some lcC5)).bind
        (fun results => pass2spec envA linesC5 (some hcC5) (some lcC5) [] results) =
      classifyLines envA linesC5 (some hcC5) (some lcC5) :=
  (claim_C5_two_pass_structure envA linesC5 (some hcC5) (some lcC5)).symm

/-- The misspelling SAFE category applied to a whole (already trimmed)
line: does the entire line match one of the misspelling patterns? -/
def misspellingWholeLine (l : List Char) : Bool :=
  commonMisspellings.any (fun p => matchPat p l)

/-- The misspelling category as `checkSafeHeader` evaluates it on its
trimmed input. -/
def misspellingTrigger (line : List Char) : Bool :=
  if (trimChars line).isEmpty then false
  else misspellingWholeLine (trimChars line)

/-- C8: the four misspelt lines classify as Header with confidence 1 via
the SAFE rules, and the misspelling category fires exactly when the entire
trimmed line matches a misspelling pattern — an occurrence inside a longer
line (which does not itself match) never fires, as the two concrete
negative lines show. -/
theorem claim_C8_misspelling_tolerance :
    (∀ (env : Env) (hc lc : Option (List ℚ)) (ctx : Context),
      classifyLine env "Chrous".toList hc lc ctx = .ok safeHeaderCls) ∧
    (∀ (env : Env) (hc lc : Option (List ℚ)) (ctx : Context),
      classifyLine env "Briddge".toList hc lc ctx = .ok safeHeaderCls) ∧
    (∀ (env : Env) (hc lc : Option (List ℚ)) (ctx : Context),
      classifyLine env "Inro".toList hc lc ctx = .ok safeHeaderCls) ∧
    (∀ (env : Env) (hc lc : Option (List ℚ)) (ctx : Context),
      classifyLine env "Virse 2".toList hc lc ctx = .ok safeHeaderCls) ∧
    (∀ l : List Char, misspellingTrigger l = misspellingWholeLine (trimChars l)) ∧
    checkSafeHeader "The Chrous begins".toList = none ∧
    checkSafeHeader "I love the Briddge here".toList = none := by
  refine ⟨fun env hc lc ctx => rfl, fun env hc lc ctx => rfl, fun env hc lc ctx => rfl,
    fun env hc lc ctx => rfl, ?_, by rfl, by rfl⟩
  intro l
  unfold misspellingTrigger
  by_cases h : (trimChars l).isEmpty = true
  · rw [if_pos h]
    have h0 : trimChars l = [] := by simpa [List.isEmpty_iff] using h
    rw [h0]
    decide
  · rw [if_neg h]

end RatComputation

end Slidegen
